import Mathlib

/-!
Shallow embedding of the chat lifecycle routes of `src/routes/chats.js`
(TCSS-450-Team-3/chatr-webservice).

The relational tables `Chats`, `Members`, `ChatMembers` and `Push_Token`
become lists of rows; each `pool.query` call becomes a pure function on the
store plus one entry in an ordered event trace; the Express middleware chains
become straight-line functions that either respond early or continue, in the
exact order of the checks in the source.  Query failure (a rejected promise,
caught by the `.catch` branches) is modelled by an oracle `fail : Nat → Bool`
indexed by the position of the query in the request's chain.
-/

namespace Chatr

/-- A row of the `Chats(ChatId, Name)` table. -/
structure Chat where
  chatId : Int
  name : String
deriving DecidableEq

/-- A row of the `Members(MemberId, Email, Username)` table. -/
structure Member where
  memberId : Int
  email : String
  username : String
deriving DecidableEq

/-- A row of the `ChatMembers(ChatId, MemberId)` table. -/
structure ChatMembership where
  chatId : Int
  memberId : Int
deriving DecidableEq

/-- A row of the `Push_Token(MemberId, Token)` table. -/
structure PushToken where
  memberId : Int
  token : String
deriving DecidableEq

/-- The relational store behind the routes.  `nextChatId` models the serial
sequence that generates `Chats.ChatId` values for `INSERT ... RETURNING ChatId`. -/
structure Store where
  chats : List Chat
  members : List Member
  chatMembers : List ChatMembership
  pushTokens : List PushToken
  nextChatId : Int
deriving DecidableEq

/-! ### JavaScript parameter scrutiny

The handlers look at a route parameter (always a string in Express) in two
ways: truthiness (`!request.params.chatId`) and `isNaN(request.params.chatId)`.
We model both, plus the integer parse PostgreSQL applies when the string is
bound to an integer column comparison. -/

/-- JS truthiness of a route-parameter string: only the empty string is falsy. -/
def jsTruthy (s : String) : Bool := !s.data.isEmpty

/-- One or more decimal digits. -/
def digits1 (l : List Char) : Bool := !l.isEmpty && l.all Char.isDigit

/-- Strip leading and trailing whitespace from a character list. -/
def trimChars (l : List Char) : List Char :=
  ((l.dropWhile Char.isWhitespace).reverse.dropWhile Char.isWhitespace).reverse

/-- Optional exponent suffix of a decimal literal: empty, or `e`/`E` followed by
an optionally signed digit string. -/
def expOpt : List Char → Bool
  | [] => true
  | c :: r =>
    (c = 'e' || c = 'E') &&
      (match r with
       | '+' :: d => digits1 d
       | '-' :: d => digits1 d
       | d => digits1 d)

/-- Remainder of a decimal literal after its leading digits (`hasInt` records
whether at least one leading digit was present): an optional fractional part
then an optional exponent. -/
def decTail (hasInt : Bool) : List Char → Bool
  | [] => hasInt
  | '.' :: r =>
    (hasInt || !(r.takeWhile Char.isDigit).isEmpty) && expOpt (r.dropWhile Char.isDigit)
  | l => hasInt && expOpt l

/-- Unsigned decimal literal of the ECMAScript StringNumericLiteral grammar:
`Infinity`, or digits with optional fraction and exponent. -/
def unsignedDec (l : List Char) : Bool :=
  l = "Infinity".data ||
    decTail (!(l.takeWhile Char.isDigit).isEmpty) (l.dropWhile Char.isDigit)

/-- Non-decimal integer literal: `0x`/`0o`/`0b` prefixed digit strings
(not allowed to carry a sign in JS). -/
def nonDecimal : List Char → Bool
  | '0' :: x :: r =>
    if x = 'x' || x = 'X' then
      !r.isEmpty && r.all (fun c => c.isDigit || ('a' ≤ c && c ≤ 'f') || ('A' ≤ c && c ≤ 'F'))
    else if x = 'o' || x = 'O' then
      !r.isEmpty && r.all (fun c => '0' ≤ c && c ≤ '7')
    else if x = 'b' || x = 'B' then
      !r.isEmpty && r.all (fun c => c = '0' || c = '1')
    else false
  | _ => false

/-- A (whitespace-trimmed, nonempty) string that JS `Number(...)` parses to a
number: optionally signed decimal literal, or unsigned non-decimal literal. -/
def strNumeric : List Char → Bool
  | '+' :: r => unsignedDec r
  | '-' :: r => unsignedDec r
  | l => unsignedDec l || nonDecimal l

/-- Model of JS `isNaN(s)` for a string `s`: `Number(s)` trims whitespace,
maps the empty remainder to 0, and otherwise parses the StringNumericLiteral
grammar (signed decimals with optional fraction/exponent, `Infinity`,
unsigned hex/octal/binary); `isNaN` is true exactly when that parse fails. -/
def jsIsNaN (s : String) : Bool :=
  let t := trimChars s.data
  if t.isEmpty then false else !strNumeric t

/-- Digit characters to the natural number they denote. -/
def digitsToNat (l : List Char) : Nat :=
  l.foldl (fun n c => n * 10 + (c.toNat - '0'.toNat)) 0

/-- Optionally signed decimal integer. -/
def parseIntChars : List Char → Option Int
  | '+' :: r => if digits1 r then some (digitsToNat r : Int) else none
  | '-' :: r => if digits1 r then some (-(digitsToNat r : Int)) else none
  | r => if digits1 r then some (digitsToNat r : Int) else none

/-- PostgreSQL's parse of a string bound against an integer column:
whitespace-trimmed optionally signed decimal integer; anything else makes the
query itself error (caught as a SQL error by the route). -/
def pgInt? (s : String) : Option Int := parseIntChars (trimChars s.data)

/-- The spec phrase "parseable as a positive integer". -/
def parsesAsPosInt (s : String) : Bool :=
  match pgInt? s with
  | some n => decide (0 < n)
  | none => false

/-! ### Responses, events, notifications -/

/-- The responses the routes can send.  Status codes and message texts from
the source: missing = 400 "Missing required information", malformed =
400 "Malformed parameter. chatId must be a number", chatNotFound =
404 "Chat ID not found", emailNotFound = 404 "email not found", userNotFound =
404 "User not found", alreadyJoined = 400 "user already joined", notInChat =
400 "user not in chat", sqlErr = 400 with the given message, created = 201,
successTrue = 200 with a success flag, chatList / memberList = 200 row sets. -/
inductive Resp
  | missing
  | malformed
  | chatNotFound
  | emailNotFound
  | userNotFound
  | alreadyJoined
  | notInChat
  | sqlErr (msg : String)
  | created (chatID : Int)
  | successTrue
  | chatList (rowCount : Nat) (rows : List (Int × String))
  | memberList (rowCount : Nat) (rows : List (String × String))
deriving DecidableEq

/-- The HTTP status code attached to each response in the source. -/
def Resp.status : Resp → Nat
  | .missing => 400
  | .malformed => 400
  | .chatNotFound => 404
  | .emailNotFound => 404
  | .userNotFound => 404
  | .alreadyJoined => 400
  | .notInChat => 400
  | .sqlErr _ => 400
  | .created _ => 201
  | .successTrue => 200
  | .chatList _ _ => 200
  | .memberList _ _ => 200

/-- One observable event of a request: a store query being issued, or the
response being sent. -/
inductive Event
  | sql
  | respond (r : Resp)
deriving DecidableEq

/-- Is this event the sending of a response? -/
def Event.isRespond : Event → Bool
  | .respond _ => true
  | .sql => false

/-- A `pushy.sendChatAction(token, "newRoom", chatId, name)` dispatch. -/
structure Notif where
  token : String
  action : String
  chatId : String
  chatName : String
deriving DecidableEq

/-- The full outcome of one request: response, final store, ordered event
trace, and the push notifications dispatched. -/
structure RunResult where
  resp : Resp
  store : Store
  events : List Event
  notifs : List Notif
deriving DecidableEq

/-- The oracle of a request none of whose queries fail. -/
def noFail : Nat → Bool := fun _ => false

/-- The oracle failing exactly the query at position `n` of the chain. -/
def failAt (n : Nat) : Nat → Bool := fun k => k == n

/-! ### Query translations (the SQL text of each appears in the route bodies) -/

/-- `SELECT * FROM CHATS WHERE ChatId=$1`. -/
def chatRows (s : Store) (cid : Int) : List Chat :=
  s.chats.filter (fun c => c.chatId == cid)

/-- `SELECT * FROM Members WHERE MemberId=$1`. -/
def memberRowsById (s : Store) (mid : Int) : List Member :=
  s.members.filter (fun m => m.memberId == mid)

/-- `SELECT * FROM Members WHERE Email=$1` (also used as
`SELECT MemberID FROM Members WHERE Email=$1`). -/
def memberRowsByEmail (s : Store) (em : String) : List Member :=
  s.members.filter (fun m => m.email == em)

/-- `SELECT * FROM ChatMembers WHERE ChatId=$1 AND MemberId=$2`. -/
def membershipRows (s : Store) (cid mid : Int) : List ChatMembership :=
  s.chatMembers.filter (fun m => m.chatId == cid && m.memberId == mid)

/-- `SELECT COUNT(*) ... FROM ChatMembers WHERE ChatId=$1` row set. -/
def chatMembershipRows (s : Store) (cid : Int) : List ChatMembership :=
  s.chatMembers.filter (fun m => m.chatId == cid)

/-- `INSERT INTO Chats(Name) VALUES ($1) RETURNING ChatId`: the new row takes
the next value of the id sequence, which is returned. -/
def insertChat (s : Store) (nm : String) : Store × Int :=
  ({ s with chats := s.chats ++ [⟨s.nextChatId, nm⟩], nextChatId := s.nextChatId + 1 },
   s.nextChatId)

/-- `INSERT INTO ChatMembers(ChatId, MemberId) VALUES ($1, $2)`. -/
def insertChatMember (s : Store) (cid mid : Int) : Store :=
  { s with chatMembers := s.chatMembers ++ [⟨cid, mid⟩] }

/-- `DELETE FROM ChatMembers WHERE ChatId=$1 AND MemberId=$2`. -/
def deleteChatMember (s : Store) (cid mid : Int) : Store :=
  { s with chatMembers :=
      s.chatMembers.filter (fun m => !(m.chatId == cid && m.memberId == mid)) }

/-- `DELETE FROM Chats WHERE ChatID=$1`. -/
def deleteChat (s : Store) (cid : Int) : Store :=
  { s with chats := s.chats.filter (fun c => !(c.chatId == cid)) }

/-- `SELECT token FROM Push_Token WHERE Push_token.memberid=$1`. -/
def pushTokenRows (s : Store) (mid : Int) : List PushToken :=
  s.pushTokens.filter (fun t => t.memberId == mid)

/-- `SELECT Chats.ChatID as "id", Chats.Name AS "name" FROM Chats JOIN
ChatMembers ON ChatMembers.ChatID = Chats.ChatID WHERE ChatMembers.MemberID=$1`. -/
def chatsForMember (s : Store) (mid : Int) : List (Int × String) :=
  s.chats.flatMap (fun c =>
    (s.chatMembers.filter (fun m => m.chatId == c.chatId && m.memberId == mid)).map
      (fun _ => (c.chatId, c.name)))

/-- `SELECT Members.Email, Members.Username FROM ChatMembers INNER JOIN Members
ON ChatMembers.MemberId=Members.MemberId WHERE ChatId=$1`. -/
def membersOfChat (s : Store) (cid : Int) : List (String × String) :=
  (s.chatMembers.filter (fun m => m.chatId == cid)).flatMap (fun m =>
    (s.members.filter (fun mem => mem.memberId == m.memberId)).map
      (fun mem => (mem.email, mem.username)))

/-! ### Routes -/

/-- Modelled from the spec: the `isStringProvided` validation helper
(`utilities/validationUtils.js`, not part of the provided sources) — true
exactly when the request-body field is present and a non-empty string
("requires non-empty name"). -/
def isStringProvided : Option String → Bool
  | some s => !s.data.isEmpty
  | none => false

/-- `POST /chats` — create a chat (chats.js lines 34-61). -/
def postChats (db : Store) (fail : Nat → Bool) (name? : Option String) : RunResult :=
  if !isStringProvided name? then
    ⟨.missing, db, [.respond .missing], []⟩
  else if fail 0 then
    ⟨.sqlErr "SQL Error", db, [.sql, .respond (.sqlErr "SQL Error")], []⟩
  else
    let res := insertChat db (name?.getD "")
    ⟨.created res.2, res.1, [.sql, .respond (.created res.2)], []⟩

/-- `GET /chats` — list the chat rooms of the caller (chats.js lines 83-103). -/
def getChats (db : Store) (fail : Nat → Bool) (callerMemberId : Int) : RunResult :=
  if fail 0 then
    ⟨.sqlErr "SQL Error", db, [.sql, .respond (.sqlErr "SQL Error")], []⟩
  else
    let rows := chatsForMember db callerMemberId
    ⟨.chatList rows.length rows, db, [.sql, .respond (.chatList rows.length rows)], []⟩

/-- `DELETE /chats/:chatId?` — self-leave plus conditional chat teardown
(chats.js lines 131-224). -/
def deleteChatRoute (db : Store) (fail : Nat → Bool) (chatIdP : String)
    (callerMemberId : Int) : RunResult :=
  if !jsTruthy chatIdP then
    ⟨.missing, db, [.respond .missing], []⟩
  else if jsIsNaN chatIdP then
    ⟨.malformed, db, [.respond .malformed], []⟩
  else
    match pgInt? chatIdP with
    | none => ⟨.sqlErr "SQL Error", db, [.sql, .respond (.sqlErr "SQL Error")], []⟩
    | some cid =>
      if fail 0 then
        ⟨.sqlErr "SQL Error", db, [.sql, .respond (.sqlErr "SQL Error")], []⟩
      else if (chatRows db cid).length = 0 then
        ⟨.chatNotFound, db, [.sql, .respond .chatNotFound], []⟩
      else if fail 1 then
        ⟨.sqlErr "SQL Error", db, [.sql, .sql, .respond (.sqlErr "SQL Error")], []⟩
      else
        let db1 := deleteChatMember db cid callerMemberId
        if fail 2 then
          ⟨.sqlErr "SQL Error", db1, [.sql, .sql, .sql, .respond (.sqlErr "SQL Error")], []⟩
        else if 0 < (chatMembershipRows db1 cid).length then
          ⟨.successTrue, db1, [.sql, .sql, .sql, .respond .successTrue], []⟩
        else if fail 3 then
          ⟨.sqlErr "SQL Error", db1,
            [.sql, .sql, .sql, .sql, .respond (.sqlErr "SQL Error")], []⟩
        else
          ⟨.successTrue, deleteChat db1 cid,
            [.sql, .sql, .sql, .sql, .respond .successTrue], []⟩

/-- `PUT /chats/:chatId/` — add the caller (JWT identity) to a chat
(chats.js lines 249-342). -/
def putSelfRoute (db : Store) (fail : Nat → Bool) (chatIdP : String)
    (callerMemberId : Int) : RunResult :=
  if !jsTruthy chatIdP then
    ⟨.missing, db, [.respond .missing], []⟩
  else if jsIsNaN chatIdP then
    ⟨.malformed, db, [.respond .malformed], []⟩
  else
    match pgInt? chatIdP with
    | none => ⟨.sqlErr "SQL Error", db, [.sql, .respond (.sqlErr "SQL Error")], []⟩
    | some cid =>
      if fail 0 then
        ⟨.sqlErr "SQL Error", db, [.sql, .respond (.sqlErr "SQL Error")], []⟩
      else if (chatRows db cid).length = 0 then
        ⟨.chatNotFound, db, [.sql, .respond .chatNotFound], []⟩
      else if fail 1 then
        ⟨.sqlErr "SQL Error", db, [.sql, .sql, .respond (.sqlErr "SQL Error")], []⟩
      else if (memberRowsById db callerMemberId).length = 0 then
        ⟨.emailNotFound, db, [.sql, .sql, .respond .emailNotFound], []⟩
      else if fail 2 then
        ⟨.sqlErr "SQL Error", db, [.sql, .sql, .sql, .respond (.sqlErr "SQL Error")], []⟩
      else if 0 < (membershipRows db cid callerMemberId).length then
        ⟨.alreadyJoined, db, [.sql, .sql, .sql, .respond .alreadyJoined], []⟩
      else if fail 3 then
        ⟨.sqlErr "SQL Error", db,
          [.sql, .sql, .sql, .sql, .respond (.sqlErr "SQL Error")], []⟩
      else
        ⟨.successTrue, insertChatMember db cid callerMemberId,
          [.sql, .sql, .sql, .sql, .respond .successTrue], []⟩

/-- `PUT /chats/:chatId/:email` — add the member with the given email to a
chat and notify each of their push tokens (chats.js lines 368-484). -/
def putEmailRoute (db : Store) (fail : Nat → Bool) (chatIdP emailP : String) :
    RunResult :=
  if !jsTruthy chatIdP || !jsTruthy emailP then
    ⟨.missing, db, [.respond .missing], []⟩
  else if jsIsNaN chatIdP then
    ⟨.malformed, db, [.respond .malformed], []⟩
  else
    match pgInt? chatIdP with
    | none => ⟨.sqlErr "SQL Error", db, [.sql, .respond (.sqlErr "SQL Error")], []⟩
    | some cid =>
      if fail 0 then
        ⟨.sqlErr "SQL Error", db, [.sql, .respond (.sqlErr "SQL Error")], []⟩
      else
        match chatRows db cid with
        | [] => ⟨.chatNotFound, db, [.sql, .respond .chatNotFound], []⟩
        | c :: _ =>
          if fail 1 then
            ⟨.sqlErr "SQL Error", db, [.sql, .sql, .respond (.sqlErr "SQL Error")], []⟩
          else
            match memberRowsByEmail db emailP with
            | [] => ⟨.userNotFound, db, [.sql, .sql, .respond .userNotFound], []⟩
            | mem :: _ =>
              if fail 2 then
                ⟨.sqlErr "SQL Error", db,
                  [.sql, .sql, .sql, .respond (.sqlErr "SQL Error")], []⟩
              else if 0 < (membershipRows db cid mem.memberId).length then
                ⟨.alreadyJoined, db, [.sql, .sql, .sql, .respond .alreadyJoined], []⟩
              else if fail 3 then
                ⟨.sqlErr "SQL Error", db,
                  [.sql, .sql, .sql, .sql, .respond (.sqlErr "SQL Error")], []⟩
              else
                let db1 := insertChatMember db cid mem.memberId
                if fail 4 then
                  ⟨.sqlErr "SQL Error on select from push token", db1,
                    [.sql, .sql, .sql, .sql, .sql,
                     .respond (.sqlErr "SQL Error on select from push token")], []⟩
                else
                  ⟨.successTrue, db1,
                    [.sql, .sql, .sql, .sql, .sql, .respond .successTrue],
                    (pushTokenRows db1 mem.memberId).map
                      (fun t => ⟨t.token, "newRoom", chatIdP, c.name⟩)⟩

/-- `GET /chats/:chatId` — list the members of a chat (chats.js lines 510-562). -/
def getChatRoute (db : Store) (fail : Nat → Bool) (chatIdP : String) : RunResult :=
  if !jsTruthy chatIdP then
    ⟨.missing, db, [.respond .missing], []⟩
  else if jsIsNaN chatIdP then
    ⟨.malformed, db, [.respond .malformed], []⟩
  else
    match pgInt? chatIdP with
    | none => ⟨.sqlErr "SQL Error", db, [.sql, .respond (.sqlErr "SQL Error")], []⟩
    | some cid =>
      if fail 0 then
        ⟨.sqlErr "SQL Error", db, [.sql, .respond (.sqlErr "SQL Error")], []⟩
      else if (chatRows db cid).length = 0 then
        ⟨.chatNotFound, db, [.sql, .respond .chatNotFound], []⟩
      else if fail 1 then
        ⟨.sqlErr "SQL Error", db, [.sql, .sql, .respond (.sqlErr "SQL Error")], []⟩
      else
        let rows := membersOfChat db cid
        ⟨.memberList rows.length rows, db,
          [.sql, .sql, .respond (.memberList rows.length rows)], []⟩

/-- `DELETE /chats/:chatId/:email` — remove the member with the given email
from a chat (chats.js lines 587-680). -/
def deleteEmailRoute (db : Store) (fail : Nat → Bool) (chatIdP emailP : String) :
    RunResult :=
  if !jsTruthy chatIdP || !jsTruthy emailP then
    ⟨.missing, db, [.respond .missing], []⟩
  else if jsIsNaN chatIdP then
    ⟨.malformed, db, [.respond .malformed], []⟩
  else
    match pgInt? chatIdP with
    | none => ⟨.sqlErr "SQL Error", db, [.sql, .respond (.sqlErr "SQL Error")], []⟩
    | some cid =>
      if fail 0 then
        ⟨.sqlErr "SQL Error", db, [.sql, .respond (.sqlErr "SQL Error")], []⟩
      else if (chatRows db cid).length = 0 then
        ⟨.chatNotFound, db, [.sql, .respond .chatNotFound], []⟩
      else if fail 1 then
        ⟨.sqlErr "SQL Error", db, [.sql, .sql, .respond (.sqlErr "SQL Error")], []⟩
      else
        match memberRowsByEmail db emailP with
        | [] => ⟨.emailNotFound, db, [.sql, .sql, .respond .emailNotFound], []⟩
        | mem :: _ =>
          if fail 2 then
            ⟨.sqlErr "SQL Error", db,
              [.sql, .sql, .sql, .respond (.sqlErr "SQL Error")], []⟩
          else if 0 < (membershipRows db cid mem.memberId).length then
            if fail 3 then
              ⟨.sqlErr "SQL Error", db,
                [.sql, .sql, .sql, .sql, .respond (.sqlErr "SQL Error")], []⟩
            else
              ⟨.successTrue, deleteChatMember db cid mem.memberId,
                [.sql, .sql, .sql, .sql, .respond .successTrue], []⟩
          else
            ⟨.notInChat, db, [.sql, .sql, .sql, .respond .notInChat], []⟩

/-- A well-formed request trace: the queries come first, then exactly one
response, and nothing follows the response. -/
def goodTrace : List Event → Bool
  | [Event.respond _] => true
  | Event.sql :: rest => goodTrace rest
  | _ => false

/-! ### Concrete stores used to instantiate the theorems -/

/-- An empty store. -/
def db0 : Store := ⟨[], [], [], [], 1⟩

/-- One chat whose only member is member 10. -/
def dbA : Store := ⟨[⟨1, "A"⟩], [⟨10, "a@x.io", "al"⟩], [⟨1, 10⟩], [], 2⟩

/-- One chat with two members, 10 and 11. -/
def dbB : Store :=
  ⟨[⟨1, "A"⟩], [⟨10, "a@x.io", "al"⟩, ⟨11, "b@x.io", "bo"⟩],
    [⟨1, 10⟩, ⟨1, 11⟩], [], 2⟩

/-- One chat, one member not yet in it, who has two push tokens. -/
def dbC : Store :=
  ⟨[⟨1, "Room"⟩], [⟨20, "c@x.io", "cy"⟩], [], [⟨20, "t1"⟩, ⟨20, "t2"⟩], 2⟩

/-- No chats yet; one member, id 10. -/
def db9 : Store := ⟨[], [⟨10, "a@x.io", "al"⟩], [], [], 1⟩

/-! ### Helper lemmas on filters -/

/-- Rows surviving a filter by the negation of a predicate never satisfy
that predicate. -/
theorem filter_filter_not {α} (l : List α) (p : α → Bool) :
    (l.filter (fun a => !p a)).filter p = [] := by
  induction l with
  | nil => rfl
  | cons a t ih => cases h : p a <;> simp [h, ih]

/-- Deleting the rows matching a predicate commutes with selecting the rows of
a chat, for the conjunctive predicates of the membership table. -/
theorem filter_swap_pred (l : List ChatMembership) (cid mid : Int) :
    ((l.filter (fun m => !(m.chatId == cid && m.memberId == mid))).filter
        (fun m => m.chatId == cid)) =
      (l.filter (fun m => m.chatId == cid)).filter (fun m => !(m.memberId == mid)) := by
  rw [List.filter_filter, List.filter_filter]
  apply List.filter_congr
  intro m _
  cases h1 : (m.chatId == cid) <;> cases h2 : (m.memberId == mid) <;> simp [h1, h2]

/-- A filter that matches no row of a list keeps the list intact when negated. -/
theorem filter_not_of_filter_nil {α} (l : List α) (p : α → Bool)
    (h : l.filter p = []) : l.filter (fun a => !p a) = l := by
  induction l with
  | nil => rfl
  | cons a t ih =>
    cases hp : p a
    · simpa [hp] using ih (by simpa [hp] using h)
    · simp [hp] at h

/-- A predicate false on every element filters to the empty list. -/
theorem filter_nil_of_none {α} (l : List α) (p : α → Bool)
    (h : ∀ a ∈ l, p a = false) : l.filter p = [] := by
  induction l with
  | nil => rfl
  | cons a t ih =>
    simp [h a (by simp), ih fun b hb => h b (by simp [hb])]

/-- Selecting a chat's membership rows after the self-delete step equals
selecting them first and then dropping the caller's rows. -/
theorem chatMembershipRows_deleteChatMember (db : Store) (cid mid : Int) :
    chatMembershipRows (deleteChatMember db cid mid) cid =
      (chatMembershipRows db cid).filter (fun m => !(m.memberId == mid)) := by
  simp only [chatMembershipRows, deleteChatMember]
  exact filter_swap_pred db.chatMembers cid mid

/-! ### Claims -/

/-- C1: for every chat with exactly one remaining member, when that member
performs DeleteChat (self-leave) on it, afterward both their ChatMembership
row and the Chat row are deleted, and a subsequent ListMembers
(GET /chats/:chatId) on that chatId returns ChatNotFound (404). -/
theorem C1_last_member_self_leave (db : Store) (p : String) (cid caller : Int)
    (h1 : jsTruthy p = true) (h2 : jsIsNaN p = false) (h3 : pgInt? p = some cid)
    (hchat : chatRows db cid ≠ [])
    (hmem : chatMembershipRows db cid = [⟨cid, caller⟩]) :
    (deleteChatRoute db noFail p caller).resp = .successTrue ∧
    membershipRows (deleteChatRoute db noFail p caller).store cid caller = [] ∧
    chatRows (deleteChatRoute db noFail p caller).store cid = [] ∧
    (getChatRoute (deleteChatRoute db noFail p caller).store noFail p).resp
        = .chatNotFound ∧
    Resp.status .chatNotFound = 404 := by
  have hempty : chatMembershipRows (deleteChatMember db cid caller) cid = [] := by
    rw [chatMembershipRows_deleteChatMember, hmem]
    simp
  have hrun : deleteChatRoute db noFail p caller =
      ⟨.successTrue, deleteChat (deleteChatMember db cid caller) cid,
        [.sql, .sql, .sql, .sql, .respond .successTrue], []⟩ := by
    simp [deleteChatRoute, h1, h2, h3, noFail, List.length_eq_zero, hchat, hempty]
  have hrows : chatRows (deleteChat (deleteChatMember db cid caller) cid) cid = [] := by
    simp only [chatRows, deleteChat, deleteChatMember]
    exact filter_filter_not db.chats _
  refine ⟨by rw [hrun], ?_, ?_, ?_, rfl⟩
  · rw [hrun]
    simp only [membershipRows, deleteChat, deleteChatMember]
    exact filter_filter_not db.chatMembers _
  · rw [hrun]
    exact hrows
  · rw [hrun]
    simp [getChatRoute, h1, h2, h3, noFail, hrows]

/-- Closed instance of C1 at a one-chat, one-member store. -/
theorem C1_last_member_self_leave_witness :
    (jsTruthy "1" = true ∧ jsIsNaN "1" = false ∧ pgInt? "1" = some 1 ∧
      chatRows dbA 1 ≠ [] ∧ chatMembershipRows dbA 1 = [⟨1, 10⟩]) ∧
    ((deleteChatRoute dbA noFail "1" 10).resp = .successTrue ∧
      membershipRows (deleteChatRoute dbA noFail "1" 10).store 1 10 = [] ∧
      chatRows (deleteChatRoute dbA noFail "1" 10).store 1 = [] ∧
      (getChatRoute (deleteChatRoute dbA noFail "1" 10).store noFail "1").resp
          = .chatNotFound ∧
      Resp.status .chatNotFound = 404) :=
  ⟨⟨by decide, by decide, by decide, by decide, by decide⟩,
    C1_last_member_self_leave dbA "1" 1 10 (by decide) (by decide) (by decide)
      (by decide) (by decide)⟩

/-- C2: DeleteChat never deletes a Chat row while the chat still has members:
whenever at least one ChatMembership row remains after the caller's row is
removed, the Chat rows are unchanged, only the caller's membership row is
removed from ChatMembers (all other rows kept), the Members table is
untouched, and the response indicates success. -/
theorem C2_chat_persists_with_members (db : Store) (p : String) (cid caller : Int)
    (h1 : jsTruthy p = true) (h2 : jsIsNaN p = false) (h3 : pgInt? p = some cid)
    (hchat : chatRows db cid ≠ [])
    (hrem : chatMembershipRows (deleteChatMember db cid caller) cid ≠ []) :
    (deleteChatRoute db noFail p caller).resp = .successTrue ∧
    (deleteChatRoute db noFail p caller).store.chats = db.chats ∧
    (deleteChatRoute db noFail p caller).store.chatMembers =
      db.chatMembers.filter (fun m => !(m.chatId == cid && m.memberId == caller)) ∧
    (deleteChatRoute db noFail p caller).store.members = db.members := by
  have hrun : deleteChatRoute db noFail p caller =
      ⟨.successTrue, deleteChatMember db cid caller,
        [.sql, .sql, .sql, .respond .successTrue], []⟩ := by
    simp [deleteChatRoute, h1, h2, h3, noFail, List.length_eq_zero, hchat,
      List.length_pos, hrem]
  rw [hrun]
  exact ⟨rfl, rfl, rfl, rfl⟩

/-- Closed instance of C2 at a two-member chat. -/
theorem C2_chat_persists_with_members_witness :
    (jsTruthy "1" = true ∧ jsIsNaN "1" = false ∧ pgInt? "1" = some 1 ∧
      chatRows dbB 1 ≠ [] ∧ chatMembershipRows (deleteChatMember dbB 1 10) 1 ≠ []) ∧
    ((deleteChatRoute dbB noFail "1" 10).resp = .successTrue ∧
      (deleteChatRoute dbB noFail "1" 10).store.chats = dbB.chats ∧
      (deleteChatRoute dbB noFail "1" 10).store.chatMembers =
        dbB.chatMembers.filter (fun m => !(m.chatId == 1 && m.memberId == 10)) ∧
      (deleteChatRoute dbB noFail "1" 10).store.members = dbB.members) :=
  ⟨⟨by decide, by decide, by decide, by decide, by decide⟩,
    C2_chat_persists_with_members dbB "1" 1 10 (by decide) (by decide) (by decide)
      (by decide) (by decide)⟩

/-- C3: for every existing chat and existing member, joining twice via
AddSelfToChat makes the first attempt succeed, the second return
DuplicateMembership (400, "user already joined"), the store unchanged by the
second attempt, and exactly one ChatMembership row for the pair afterward. -/
theorem C3_duplicate_self_join (db : Store) (p : String) (cid caller : Int)
    (h1 : jsTruthy p = true) (h2 : jsIsNaN p = false) (h3 : pgInt? p = some cid)
    (hchat : chatRows db cid ≠ [])
    (hcaller : memberRowsById db caller ≠ [])
    (hnot : membershipRows db cid caller = []) :
    (putSelfRoute db noFail p caller).resp = .successTrue ∧
    (putSelfRoute (putSelfRoute db noFail p caller).store noFail p caller).resp
        = .alreadyJoined ∧
    Resp.status .alreadyJoined = 400 ∧
    (putSelfRoute (putSelfRoute db noFail p caller).store noFail p caller).store
        = (putSelfRoute db noFail p caller).store ∧
    membershipRows
        (putSelfRoute (putSelfRoute db noFail p caller).store noFail p caller).store
        cid caller = [⟨cid, caller⟩] := by
  have hnot' : db.chatMembers.filter
      (fun m => m.chatId == cid && m.memberId == caller) = [] := hnot
  have hrun1 : putSelfRoute db noFail p caller =
      ⟨.successTrue, insertChatMember db cid caller,
        [.sql, .sql, .sql, .sql, .respond .successTrue], []⟩ := by
    simp [putSelfRoute, h1, h2, h3, noFail, List.length_eq_zero, hchat, hcaller, hnot]
  have hm1 : membershipRows (insertChatMember db cid caller) cid caller
      = [⟨cid, caller⟩] := by
    simp [membershipRows, insertChatMember, List.filter_append, hnot']
  have hc2 : chatRows (insertChatMember db cid caller) cid ≠ [] := hchat
  have hmem2 : memberRowsById (insertChatMember db cid caller) caller ≠ [] := hcaller
  have hrun2 : putSelfRoute (insertChatMember db cid caller) noFail p caller =
      ⟨.alreadyJoined, insertChatMember db cid caller,
        [.sql, .sql, .sql, .respond .alreadyJoined], []⟩ := by
    simp [putSelfRoute, h1, h2, h3, noFail, List.length_eq_zero, hc2, hmem2, hm1]
  rw [hrun1, hrun2]
  exact ⟨rfl, rfl, rfl, rfl, hm1⟩

/-- Closed instance of C3 at a one-chat store whose member 20 is not yet in
the chat. -/
theorem C3_duplicate_self_join_witness :
    (jsTruthy "1" = true ∧ jsIsNaN "1" = false ∧ pgInt? "1" = some 1 ∧
      chatRows dbC 1 ≠ [] ∧ memberRowsById dbC 20 ≠ [] ∧
      membershipRows dbC 1 20 = []) ∧
    ((putSelfRoute dbC noFail "1" 20).resp = .successTrue ∧
      (putSelfRoute (putSelfRoute dbC noFail "1" 20).store noFail "1" 20).resp
          = .alreadyJoined ∧
      Resp.status .alreadyJoined = 400 ∧
      (putSelfRoute (putSelfRoute dbC noFail "1" 20).store noFail "1" 20).store
          = (putSelfRoute dbC noFail "1" 20).store ∧
      membershipRows
          (putSelfRoute (putSelfRoute dbC noFail "1" 20).store noFail "1" 20).store
          1 20 = [⟨1, 20⟩]) :=
  ⟨⟨by decide, by decide, by decide, by decide, by decide, by decide⟩,
    C3_duplicate_self_join dbC "1" 1 20 (by decide) (by decide) (by decide)
      (by decide) (by decide) (by decide)⟩

/-- C4 counterexample: the chatId "-7" is not parseable as a positive integer,
yet GET /chats/:chatId does not answer MalformedParameter for it — the guard
is only JS isNaN, so "-7" passes, a store query is issued (the .sql event),
and the response is ChatNotFound. -/
theorem C4_counterexample :
    parsesAsPosInt "-7" = false ∧
    getChatRoute db0 noFail "-7"
      = ⟨.chatNotFound, db0, [.sql, .respond .chatNotFound], []⟩ ∧
    (getChatRoute db0 noFail "-7").resp ≠ .malformed :=
  ⟨by decide, by decide, by decide⟩

/-- C4 (amended): for every chatId parameter that is truthy and fails the JS
isNaN numeric test, every chat-scoped endpoint answers MalformedParameter,
leaves the store untouched, and issues no store query (trace holds only the
response); numeric strings that are not positive integers pass this guard. -/
theorem C4_malformed_guard (db : Store) (fl : Nat → Bool) (p em : String)
    (caller : Int)
    (h1 : jsTruthy p = true) (h2 : jsIsNaN p = true) (h3 : jsTruthy em = true) :
    getChatRoute db fl p = ⟨.malformed, db, [.respond .malformed], []⟩ ∧
    putSelfRoute db fl p caller = ⟨.malformed, db, [.respond .malformed], []⟩ ∧
    putEmailRoute db fl p em = ⟨.malformed, db, [.respond .malformed], []⟩ ∧
    deleteChatRoute db fl p caller = ⟨.malformed, db, [.respond .malformed], []⟩ ∧
    deleteEmailRoute db fl p em = ⟨.malformed, db, [.respond .malformed], []⟩ := by
  refine ⟨?_, ?_, ?_, ?_, ?_⟩ <;>
    simp [getChatRoute, putSelfRoute, putEmailRoute, deleteChatRoute,
      deleteEmailRoute, h1, h2, h3]

/-- Closed instance of the amended C4 at the non-numeric chatId "abc". -/
theorem C4_malformed_guard_witness :
    (jsTruthy "abc" = true ∧ jsIsNaN "abc" = true ∧ jsTruthy "e@x.io" = true) ∧
    (getChatRoute db0 noFail "abc" = ⟨.malformed, db0, [.respond .malformed], []⟩ ∧
      putSelfRoute db0 noFail "abc" 1 = ⟨.malformed, db0, [.respond .malformed], []⟩ ∧
      putEmailRoute db0 noFail "abc" "e@x.io"
        = ⟨.malformed, db0, [.respond .malformed], []⟩ ∧
      deleteChatRoute db0 noFail "abc" 1
        = ⟨.malformed, db0, [.respond .malformed], []⟩ ∧
      deleteEmailRoute db0 noFail "abc" "e@x.io"
        = ⟨.malformed, db0, [.respond .malformed], []⟩) :=
  ⟨⟨by decide, by decide, by decide⟩,
    C4_malformed_guard db0 noFail "abc" "e@x.io" 1 (by decide) (by decide)
      (by decide)⟩

/-- C5: in AddMemberByEmail, after the membership insert succeeds there is
exactly one notification dispatch per PushToken row of the added member (each
carrying the "newRoom" action, the chatId parameter and the chat name; zero
tokens give zero dispatches and a success response), and if the PushToken
lookup fails (the query at position 4 of the chain), a StoreError is reported
to the caller while the already-committed membership row still exists. -/
theorem C5_notification_fanout (db : Store) (p em : String) (cid : Int)
    (c : Chat) (cs : List Chat) (mem : Member) (ms : List Member)
    (h1 : jsTruthy p = true) (h2 : jsIsNaN p = false) (h3 : pgInt? p = some cid)
    (hte : jsTruthy em = true)
    (hchat : chatRows db cid = c :: cs)
    (hmem : memberRowsByEmail db em = mem :: ms)
    (hnot : membershipRows db cid mem.memberId = []) :
    (putEmailRoute db noFail p em).resp = .successTrue ∧
    (putEmailRoute db noFail p em).notifs =
      (pushTokenRows db mem.memberId).map
        (fun t => ⟨t.token, "newRoom", p, c.name⟩) ∧
    (putEmailRoute db noFail p em).notifs.length
        = (pushTokenRows db mem.memberId).length ∧
    (pushTokenRows db mem.memberId = [] → (putEmailRoute db noFail p em).notifs = []) ∧
    membershipRows (putEmailRoute db noFail p em).store cid mem.memberId
        = [⟨cid, mem.memberId⟩] ∧
    (putEmailRoute db (failAt 4) p em).resp
        = .sqlErr "SQL Error on select from push token" ∧
    membershipRows (putEmailRoute db (failAt 4) p em).store cid mem.memberId
        = [⟨cid, mem.memberId⟩] := by
  have hnot' : db.chatMembers.filter
      (fun m => m.chatId == cid && m.memberId == mem.memberId) = [] := hnot
  have hm1 : membershipRows (insertChatMember db cid mem.memberId) cid mem.memberId
      = [⟨cid, mem.memberId⟩] := by
    simp [membershipRows, insertChatMember, List.filter_append, hnot']
  have hrunOK : putEmailRoute db noFail p em =
      ⟨.successTrue, insertChatMember db cid mem.memberId,
        [.sql, .sql, .sql, .sql, .sql, .respond .successTrue],
        (pushTokenRows db mem.memberId).map
          (fun t => ⟨t.token, "newRoom", p, c.name⟩)⟩ := by
    simp [putEmailRoute, h1, h2, h3, hte, noFail, hchat, hmem, hnot,
      pushTokenRows, insertChatMember]
  have hrunF : putEmailRoute db (failAt 4) p em =
      ⟨.sqlErr "SQL Error on select from push token",
        insertChatMember db cid mem.memberId,
        [.sql, .sql, .sql, .sql, .sql,
         .respond (.sqlErr "SQL Error on select from push token")], []⟩ := by
    simp [putEmailRoute, h1, h2, h3, hte, failAt, hchat, hmem, hnot]
  refine ⟨by rw [hrunOK], by rw [hrunOK], ?_, ?_, ?_, by rw [hrunF], ?_⟩
  · rw [hrunOK]
    simp
  · intro h
    rw [hrunOK]
    simp [h]
  · rw [hrunOK]
    exact hm1
  · rw [hrunF]
    exact hm1

/-- Closed instance of C5: member 20 has two push tokens, so the successful
run dispatches two notifications, and the token-lookup-failure run still keeps
the inserted membership row. -/
theorem C5_notification_fanout_witness :
    (jsTruthy "1" = true ∧ jsIsNaN "1" = false ∧ pgInt? "1" = some 1 ∧
      jsTruthy "c@x.io" = true ∧
      chatRows dbC 1 = [⟨1, "Room"⟩] ∧
      memberRowsByEmail dbC "c@x.io" = [⟨20, "c@x.io", "cy"⟩] ∧
      membershipRows dbC 1 20 = []) ∧
    ((putEmailRoute dbC noFail "1" "c@x.io").resp = .successTrue ∧
      (putEmailRoute dbC noFail "1" "c@x.io").notifs =
        (pushTokenRows dbC 20).map (fun t => ⟨t.token, "newRoom", "1", "Room"⟩) ∧
      (putEmailRoute dbC noFail "1" "c@x.io").notifs.length
          = (pushTokenRows dbC 20).length ∧
      (pushTokenRows dbC 20 = [] → (putEmailRoute dbC noFail "1" "c@x.io").notifs = []) ∧
      membershipRows (putEmailRoute dbC noFail "1" "c@x.io").store 1 20 = [⟨1, 20⟩] ∧
      (putEmailRoute dbC (failAt 4) "1" "c@x.io").resp
          = .sqlErr "SQL Error on select from push token" ∧
      membershipRows (putEmailRoute dbC (failAt 4) "1" "c@x.io").store 1 20
          = [⟨1, 20⟩]) :=
  ⟨⟨by decide, by decide, by decide, by decide, by decide, by decide, by decide⟩,
    C5_notification_fanout dbC "1" "c@x.io" 1 ⟨1, "Room"⟩ [] ⟨20, "c@x.io", "cy"⟩ []
      (by decide) (by decide) (by decide) (by decide) (by decide) (by decide)
      (by decide)⟩

/-- C6: for every existing chat and email resolving to an existing member who
has no ChatMembership row in that chat, RemoveMemberByEmail returns NotInChat
(400, "user not in chat") and the store is completely unchanged. -/
theorem C6_remove_nonmember (db : Store) (p em : String) (cid : Int)
    (mem : Member) (ms : List Member)
    (h1 : jsTruthy p = true) (h2 : jsIsNaN p = false) (h3 : pgInt? p = some cid)
    (hte : jsTruthy em = true)
    (hchat : chatRows db cid ≠ [])
    (hmem : memberRowsByEmail db em = mem :: ms)
    (hnot : membershipRows db cid mem.memberId = []) :
    (deleteEmailRoute db noFail p em).resp = .notInChat ∧
    Resp.status .notInChat = 400 ∧
    (deleteEmailRoute db noFail p em).store = db := by
  have hrun : deleteEmailRoute db noFail p em =
      ⟨.notInChat, db, [.sql, .sql, .sql, .respond .notInChat], []⟩ := by
    simp [deleteEmailRoute, h1, h2, h3, hte, noFail, List.length_eq_zero, hchat,
      hmem, hnot]
  rw [hrun]
  exact ⟨rfl, rfl, rfl⟩

/-- Closed instance of C6: member 20 exists but is not in chat 1. -/
theorem C6_remove_nonmember_witness :
    (jsTruthy "1" = true ∧ jsIsNaN "1" = false ∧ pgInt? "1" = some 1 ∧
      jsTruthy "c@x.io" = true ∧ chatRows dbC 1 ≠ [] ∧
      memberRowsByEmail dbC "c@x.io" = [⟨20, "c@x.io", "cy"⟩] ∧
      membershipRows dbC 1 20 = []) ∧
    ((deleteEmailRoute dbC noFail "1" "c@x.io").resp = .notInChat ∧
      Resp.status .notInChat = 400 ∧
      (deleteEmailRoute dbC noFail "1" "c@x.io").store = dbC) :=
  ⟨⟨by decide, by decide, by decide, by decide, by decide, by decide, by decide⟩,
    C6_remove_nonmember dbC "1" "c@x.io" 1 ⟨20, "c@x.io", "cy"⟩ []
      (by decide) (by decide) (by decide) (by decide) (by decide) (by decide)
      (by decide)⟩

/-- C7: in DeleteChat, the deletion of the caller's ChatMembership row is
idempotent with respect to non-membership: for every existing chat whose
membership table holds no row for the caller, the delete leaves the table
as it was, no error is raised (the request succeeds), and the flow reaches
the remaining-member count step (at least three queries are issued). -/
theorem C7_idempotent_member_delete (db : Store) (p : String) (cid caller : Int)
    (h1 : jsTruthy p = true) (h2 : jsIsNaN p = false) (h3 : pgInt? p = some cid)
    (hchat : chatRows db cid ≠ [])
    (hnone : membershipRows db cid caller = []) :
    deleteChatMember db cid caller = db ∧
    (deleteChatRoute db noFail p caller).resp = .successTrue ∧
    (deleteChatRoute db noFail p caller).store.chatMembers = db.chatMembers ∧
    3 ≤ ((deleteChatRoute db noFail p caller).events.filter
          (fun e => !e.isRespond)).length := by
  have hid : deleteChatMember db cid caller = db := by
    have h : db.chatMembers.filter
        (fun m => !(m.chatId == cid && m.memberId == caller)) = db.chatMembers :=
      filter_not_of_filter_nil _ _ hnone
    unfold deleteChatMember
    rw [h]
  by_cases hc : 0 < (chatMembershipRows db cid).length
  · have hrun : deleteChatRoute db noFail p caller =
        ⟨.successTrue, db, [.sql, .sql, .sql, .respond .successTrue], []⟩ := by
      simp [deleteChatRoute, h1, h2, h3, noFail, List.length_eq_zero, hchat, hid, hc]
    rw [hrun]
    refine ⟨hid, rfl, rfl, ?_⟩
    simp [Event.isRespond]
  · have hrun : deleteChatRoute db noFail p caller =
        ⟨.successTrue, deleteChat db cid,
          [.sql, .sql, .sql, .sql, .respond .successTrue], []⟩ := by
      simp [deleteChatRoute, h1, h2, h3, noFail, List.length_eq_zero, hchat, hid, hc]
    rw [hrun]
    refine ⟨hid, rfl, rfl, ?_⟩
    simp [Event.isRespond]

/-- Closed instance of C7: caller 99 is not a member of chat 1. -/
theorem C7_idempotent_member_delete_witness :
    (jsTruthy "1" = true ∧ jsIsNaN "1" = false ∧ pgInt? "1" = some 1 ∧
      chatRows dbA 1 ≠ [] ∧ membershipRows dbA 1 99 = []) ∧
    (deleteChatMember dbA 1 99 = dbA ∧
      (deleteChatRoute dbA noFail "1" 99).resp = .successTrue ∧
      (deleteChatRoute dbA noFail "1" 99).store.chatMembers = dbA.chatMembers ∧
      3 ≤ ((deleteChatRoute dbA noFail "1" 99).events.filter
            (fun e => !e.isRespond)).length) :=
  ⟨⟨by decide, by decide, by decide, by decide, by decide⟩,
    C7_idempotent_member_delete dbA "1" 1 99 (by decide) (by decide) (by decide)
      (by decide) (by decide)⟩

set_option maxHeartbeats 1000000 in
/-- C8: for every endpoint of the chat lifecycle controller, every input and
every pattern of query failures, the event trace is a sequence of store
queries followed by exactly one response, and nothing — in particular no
store operation — comes after the response: the first failing check
short-circuits the rest of the chain. -/
theorem C8_respond_once_last (db : Store) (fl : Nat → Bool) (name? : Option String)
    (p em : String) (caller : Int) :
    goodTrace (postChats db fl name?).events = true ∧
    goodTrace (getChats db fl caller).events = true ∧
    goodTrace (deleteChatRoute db fl p caller).events = true ∧
    goodTrace (putSelfRoute db fl p caller).events = true ∧
    goodTrace (putEmailRoute db fl p em).events = true ∧
    goodTrace (getChatRoute db fl p).events = true ∧
    goodTrace (deleteEmailRoute db fl p em).events = true := by
  refine ⟨?_, ?_, ?_, ?_, ?_, ?_, ?_⟩
  · unfold postChats
    (repeat' split) <;> simp [goodTrace, apply_ite RunResult.events, apply_ite goodTrace]
  · unfold getChats
    (repeat' split) <;> simp [goodTrace, apply_ite RunResult.events, apply_ite goodTrace]
  · unfold deleteChatRoute
    (repeat' split) <;> simp [goodTrace, apply_ite RunResult.events, apply_ite goodTrace]
  · unfold putSelfRoute
    (repeat' split) <;> simp [goodTrace, apply_ite RunResult.events, apply_ite goodTrace]
  · unfold putEmailRoute
    (repeat' split) <;> simp [goodTrace, apply_ite RunResult.events, apply_ite goodTrace]
  · unfold getChatRoute
    (repeat' split) <;> simp [goodTrace, apply_ite RunResult.events, apply_ite goodTrace]
  · unfold deleteEmailRoute
    (repeat' split) <;> simp [goodTrace, apply_ite RunResult.events, apply_ite goodTrace]

/-- C9: round-trip — starting from a store where the caller exists as a
Member and the generated id is fresh, CreateChat("Team") followed by
AddSelfToChat on the returned chatId makes ListMembers of that chat return
exactly the caller (email and username, one row), and ListChatsForMember for
the caller contain the new chat with the generated id and name "Team". -/
theorem C9_create_join_roundtrip (db : Store) (p : String) (caller : Int)
    (mem : Member)
    (h1 : jsTruthy p = true) (h2 : jsIsNaN p = false)
    (h3 : pgInt? p = some db.nextChatId)
    (hm : memberRowsById db caller = [mem])
    (hfresh1 : ∀ c ∈ db.chats, c.chatId ≠ db.nextChatId)
    (hfresh2 : ∀ m ∈ db.chatMembers, m.chatId ≠ db.nextChatId) :
    (postChats db noFail (some "Team")).resp = .created db.nextChatId ∧
    (putSelfRoute (postChats db noFail (some "Team")).store noFail p caller).resp
        = .successTrue ∧
    (getChatRoute
        (putSelfRoute (postChats db noFail (some "Team")).store noFail p caller).store
        noFail p).resp = .memberList 1 [(mem.email, mem.username)] ∧
    (db.nextChatId, "Team") ∈ chatsForMember
        (putSelfRoute (postChats db noFail (some "Team")).store noFail p caller).store
        caller := by
  have hm' : db.members.filter (fun m => m.memberId == caller) = [mem] := hm
  have hfiltc : db.chats.filter (fun c => c.chatId == db.nextChatId) = [] := by
    refine filter_nil_of_none _ _ fun c hc => ?_
    simpa [beq_eq_false_iff_ne] using hfresh1 c hc
  have hfiltm : db.chatMembers.filter (fun m => m.chatId == db.nextChatId) = [] := by
    refine filter_nil_of_none _ _ fun m hmm => ?_
    simpa [beq_eq_false_iff_ne] using hfresh2 m hmm
  have hfiltm2 : db.chatMembers.filter
      (fun m => m.chatId == db.nextChatId && m.memberId == caller) = [] := by
    refine filter_nil_of_none _ _ fun m hmm => ?_
    have h := hfresh2 m hmm
    simp [beq_eq_false_iff_ne, h]
  have hpost : postChats db noFail (some "Team") =
      ⟨.created db.nextChatId,
        { db with chats := db.chats ++ [⟨db.nextChatId, "Team"⟩],
                  nextChatId := db.nextChatId + 1 },
        [.sql, .respond (.created db.nextChatId)], []⟩ := by
    simp [postChats, noFail, isStringProvided, insertChat]
  have hchat1 : chatRows
      ({ db with chats := db.chats ++ [⟨db.nextChatId, "Team"⟩],
                 nextChatId := db.nextChatId + 1 } : Store) db.nextChatId
      = [⟨db.nextChatId, "Team"⟩] := by
    simp [chatRows, List.filter_append, hfiltc]
  have hput : putSelfRoute
      ({ db with chats := db.chats ++ [⟨db.nextChatId, "Team"⟩],
                 nextChatId := db.nextChatId + 1 } : Store) noFail p caller =
      ⟨.successTrue,
        insertChatMember
          ({ db with chats := db.chats ++ [⟨db.nextChatId, "Team"⟩],
                     nextChatId := db.nextChatId + 1 } : Store) db.nextChatId caller,
        [.sql, .sql, .sql, .sql, .respond .successTrue], []⟩ := by
    have hmm : membershipRows
        ({ db with chats := db.chats ++ [⟨db.nextChatId, "Team"⟩],
                   nextChatId := db.nextChatId + 1 } : Store) db.nextChatId caller
        = [] := hfiltm2
    have hmemid : memberRowsById
        ({ db with chats := db.chats ++ [⟨db.nextChatId, "Team"⟩],
                   nextChatId := db.nextChatId + 1 } : Store) caller = [mem] := hm
    simp [putSelfRoute, h1, h2, h3, noFail, List.length_eq_zero, hchat1, hmemid, hmm]
  have hmo : membersOfChat
      (insertChatMember
        ({ db with chats := db.chats ++ [⟨db.nextChatId, "Team"⟩],
                   nextChatId := db.nextChatId + 1 } : Store) db.nextChatId caller)
      db.nextChatId = [(mem.email, mem.username)] := by
    simp [membersOfChat, insertChatMember, List.filter_append, hfiltm, hm']
  have hget : getChatRoute
      (insertChatMember
        ({ db with chats := db.chats ++ [⟨db.nextChatId, "Team"⟩],
                   nextChatId := db.nextChatId + 1 } : Store) db.nextChatId caller)
      noFail p =
      ⟨.memberList 1 [(mem.email, mem.username)],
        insertChatMember
          ({ db with chats := db.chats ++ [⟨db.nextChatId, "Team"⟩],
                     nextChatId := db.nextChatId + 1 } : Store) db.nextChatId caller,
        [.sql, .sql, .respond (.memberList 1 [(mem.email, mem.username)])], []⟩ := by
    have hchat2 : chatRows
        (insertChatMember
          ({ db with chats := db.chats ++ [⟨db.nextChatId, "Team"⟩],
                     nextChatId := db.nextChatId + 1 } : Store) db.nextChatId caller)
        db.nextChatId = [⟨db.nextChatId, "Team"⟩] := hchat1
    simp [getChatRoute, h1, h2, h3, noFail, List.length_eq_zero, hchat2, hmo]
  have hjoin : (db.nextChatId, "Team") ∈ chatsForMember
      (insertChatMember
        ({ db with chats := db.chats ++ [⟨db.nextChatId, "Team"⟩],
                   nextChatId := db.nextChatId + 1 } : Store) db.nextChatId caller)
      caller := by
    unfold chatsForMember
    refine List.mem_flatMap.mpr ⟨⟨db.nextChatId, "Team"⟩, ?_, ?_⟩
    · simp [insertChatMember]
    · simp [insertChatMember, List.filter_append, hfiltm2]
  refine ⟨?_, ?_, ?_, ?_⟩
  · rw [hpost]
  · rw [hpost]
    dsimp only
    rw [hput]
  · rw [hpost]
    dsimp only
    rw [hput]
    dsimp only
    rw [hget]
  · rw [hpost]
    dsimp only
    rw [hput]
    dsimp only
    exact hjoin

/-- Closed instance of C9 at a store holding only member 10. -/
theorem C9_create_join_roundtrip_witness :
    (jsTruthy "1" = true ∧ jsIsNaN "1" = false ∧ pgInt? "1" = some db9.nextChatId ∧
      memberRowsById db9 10 = [⟨10, "a@x.io", "al"⟩] ∧
      (∀ c ∈ db9.chats, c.chatId ≠ db9.nextChatId) ∧
      (∀ m ∈ db9.chatMembers, m.chatId ≠ db9.nextChatId)) ∧
    ((postChats db9 noFail (some "Team")).resp = .created db9.nextChatId ∧
      (putSelfRoute (postChats db9 noFail (some "Team")).store noFail "1" 10).resp
          = .successTrue ∧
      (getChatRoute
          (putSelfRoute (postChats db9 noFail (some "Team")).store noFail "1" 10).store
          noFail "1").resp = .memberList 1 [("a@x.io", "al")] ∧
      (db9.nextChatId, "Team") ∈ chatsForMember
          (putSelfRoute (postChats db9 noFail (some "Team")).store noFail "1" 10).store
          10) :=
  ⟨⟨by decide, by decide, by decide, by decide, by decide, by decide⟩,
    C9_create_join_roundtrip db9 "1" 10 ⟨10, "a@x.io", "al"⟩ (by decide) (by decide)
      (by decide) (by decide) (by decide) (by decide)⟩

/-- C10: CreateChat inserts only a Chats row and does not add the caller as a
member: after a successful CreateChat the ChatMembers and Members tables are
unchanged, the new chat has zero ChatMembership rows, and no member's
ListChatsForMember result contains the generated id. -/
theorem C10_create_frame (db : Store) (name? : Option String)
    (hname : isStringProvided name? = true)
    (hfresh : ∀ m ∈ db.chatMembers, m.chatId ≠ db.nextChatId) :
    (postChats db noFail name?).resp = .created db.nextChatId ∧
    (postChats db noFail name?).store.chatMembers = db.chatMembers ∧
    (postChats db noFail name?).store.members = db.members ∧
    chatMembershipRows (postChats db noFail name?).store db.nextChatId = [] ∧
    ∀ mid : Int, ∀ pr ∈ chatsForMember (postChats db noFail name?).store mid,
      pr.1 ≠ db.nextChatId := by
  have hfiltm : db.chatMembers.filter (fun m => m.chatId == db.nextChatId) = [] := by
    refine filter_nil_of_none _ _ fun m hmm => ?_
    simpa [beq_eq_false_iff_ne] using hfresh m hmm
  have hpost : postChats db noFail name? =
      ⟨.created db.nextChatId,
        { db with chats := db.chats ++ [⟨db.nextChatId, name?.getD ""⟩],
                  nextChatId := db.nextChatId + 1 },
        [.sql, .respond (.created db.nextChatId)], []⟩ := by
    simp [postChats, noFail, hname, insertChat]
  rw [hpost]
  refine ⟨rfl, rfl, rfl, hfiltm, ?_⟩
  intro mid pr hpr
  dsimp only at hpr
  unfold chatsForMember at hpr
  obtain ⟨c, hc, hmap⟩ := List.mem_flatMap.mp hpr
  obtain ⟨m, hmfil, heq⟩ := List.mem_map.mp hmap
  obtain ⟨hmmem, hcond⟩ := List.mem_filter.mp hmfil
  simp only [Bool.and_eq_true, beq_iff_eq] at hcond
  have hchatid : m.chatId = c.chatId := hcond.1
  intro hcontra
  have : m.chatId = db.nextChatId := by
    rw [hchatid, ← heq] at *
    simpa using hcontra
  exact hfresh m hmmem this

/-- Closed instance of C10 at a store holding only member 10. -/
theorem C10_create_frame_witness :
    (isStringProvided (some "Team") = true ∧
      (∀ m ∈ db9.chatMembers, m.chatId ≠ db9.nextChatId)) ∧
    ((postChats db9 noFail (some "Team")).resp = .created db9.nextChatId ∧
      (postChats db9 noFail (some "Team")).store.chatMembers = db9.chatMembers ∧
      (postChats db9 noFail (some "Team")).store.members = db9.members ∧
      chatMembershipRows (postChats db9 noFail (some "Team")).store db9.nextChatId
          = [] ∧
      ∀ mid : Int, ∀ pr ∈ chatsForMember (postChats db9 noFail (some "Team")).store mid,
        pr.1 ≠ db9.nextChatId) :=
  ⟨⟨by decide, by decide⟩,
    C10_create_frame db9 (some "Team") (by decide) (by decide)⟩

end Chatr
